import Mathlib

/-!
Shallow embedding of the Networking-Troubleshooter-Agent frontend.

The embedded code comes from:
* `src/frontend/services/api.js` — the `diagnose` response unwrapping and the
  `downloadReport` request construction;
* `src/frontend/utils/helpers.js` — `prettyJSON`, and the
  `OriginalTroubleshooter` component (`onRun`, `onDownload`, the
  `Object.entries` rendering of the flat per-tool map);
* `src/frontend/src/TroubleshooterDashboard.jsx` — `runDiagnosis`,
  `downloadFixScript`, and the summary / results display.

JavaScript values are modelled by the inductive type `JSValue`; machine-level
details that none of the embedded code observes (number formatting beyond
integers, string escaping inside serialized JSON) are rendered in a fixed
canonical way, while truthiness, property access, presence/absence of
fields, and the throwing behaviour of `JSON.stringify` follow the JavaScript
semantics exactly.
-/

namespace NetTS

/-- Model of a JavaScript value as observed by the embedded code.
`jbig` models a BigInt, the one value family in scope on which
`JSON.stringify` throws. -/
inductive JSValue : Type where
  | jundefined : JSValue
  | jnull : JSValue
  | jbool : Bool → JSValue
  | jnum : Int → JSValue
  | jstr : String → JSValue
  | jarr : List JSValue → JSValue
  | jobj : List (String × JSValue) → JSValue
  | jbig : Int → JSValue
  deriving Repr, Inhabited

namespace JSValue

/-- JavaScript truthiness of a value (`Boolean(v)`). -/
def truthy : JSValue → Bool
  | .jundefined => false
  | .jnull => false
  | .jbool b => b
  | .jnum n => n != 0
  | .jstr s => s ≠ ""
  | .jarr _ => true
  | .jobj _ => true
  | .jbig n => n != 0

/-- Property access `v[k]`: the first binding of `k` on an object, and
`undefined` on a non-object or a missing key (the embedded code only
dereferences properties behind truthiness guards, so the throwing cases
`null.k` / `undefined.k` are never reached). -/
def getProp (v : JSValue) (k : String) : JSValue :=
  match v with
  | .jobj fs => (fs.lookup k).getD .jundefined
  | _ => .jundefined

/-- Whether `v` is an object carrying the key `k` (`k in v`). -/
def hasProp (v : JSValue) (k : String) : Bool :=
  match v with
  | .jobj fs => (fs.lookup k).isSome
  | _ => false

/-- Whether the value is a string. -/
def isString : JSValue → Bool
  | .jstr _ => true
  | _ => false

/-- Enumeration `Object.entries(v)` as used by the `OriginalTroubleshooter`
render path on its (object-shaped) `data` state. -/
def objectEntries : JSValue → List (String × JSValue)
  | .jobj fs => fs
  | _ => []

end JSValue

open JSValue

mutual

/-- The `String(v)` coercion used by the `catch` branch of `prettyJSON` and
by `Blob` part stringification. -/
def jsToString : JSValue → String
  | .jundefined => "undefined"
  | .jnull => "null"
  | .jbool b => if b then "true" else "false"
  | .jnum n => toString n
  | .jstr s => s
  | .jarr xs => String.intercalate "," (jsArrElems xs)
  | .jobj _ => "[object Object]"
  | .jbig n => toString n

/-- Element strings for the `Array.prototype.toString` join: `null` and
`undefined` elements render as the empty string. -/
def jsArrElems : List JSValue → List String
  | [] => []
  | .jundefined :: rest => "" :: jsArrElems rest
  | .jnull :: rest => "" :: jsArrElems rest
  | v :: rest => jsToString v :: jsArrElems rest

end

/-- Result of running a JavaScript expression that may throw. -/
inductive JSResult (α : Type) : Type where
  | ok : α → JSResult α
  | thrown : JSResult α
  deriving Repr

mutual

/-- Model of `JSON.stringify(v)`: `ok none` when the call returns
`undefined` (input `undefined`), `thrown` when it throws (a BigInt anywhere
in the value), and `ok (some s)` with the serialized text otherwise.
The exact whitespace of the 2-space pretty form and string escaping are
rendered canonically; only which inputs yield a string, yield `undefined`,
or throw matters to the embedded code. -/
def jsonStringify : JSValue → JSResult (Option String)
  | .jundefined => .ok none
  | .jnull => .ok (some "null")
  | .jbool b => .ok (some (if b then "true" else "false"))
  | .jnum n => .ok (some (toString n))
  | .jstr s => .ok (some ("\"" ++ s ++ "\""))
  | .jarr xs =>
    match jsonArrElems xs with
    | .thrown => .thrown
    | .ok es => .ok (some ("[" ++ String.intercalate "," es ++ "]"))
  | .jobj fs =>
    match jsonObjFields fs with
    | .thrown => .thrown
    | .ok es => .ok (some ("\x7b" ++ String.intercalate "," es ++ "\x7d"))
  | .jbig _ => .thrown

/-- Serialized array elements; an `undefined` element serializes as
`null`, a throwing element propagates the throw. -/
def jsonArrElems : List JSValue → JSResult (List String)
  | [] => .ok []
  | v :: rest =>
    match jsonStringify v with
    | .thrown => .thrown
    | .ok e =>
      match jsonArrElems rest with
      | .thrown => .thrown
      | .ok es => .ok ((e.getD "null") :: es)

/-- Serialized object fields; a field whose value serializes to
`undefined` is omitted, a throwing field propagates the throw. -/
def jsonObjFields : List (String × JSValue) → JSResult (List String)
  | [] => .ok []
  | (k, v) :: rest =>
    match jsonStringify v with
    | .thrown => .thrown
    | .ok e =>
      match jsonObjFields rest with
      | .thrown => .thrown
      | .ok es =>
        match e with
        | none => .ok es
        | some s => .ok (("\"" ++ k ++ "\":" ++ s) :: es)

end

/-- Embedding of `prettyJSON` (src/frontend/utils/helpers.js lines 2-8):
`try { return JSON.stringify(obj, null, 2); } catch (e) { return String(obj); }`.
The returned `JSValue` is the value of the call: the serialized string, the
`String(obj)` coercion when `JSON.stringify` threw, or `undefined` when
`JSON.stringify` returned `undefined`. -/
def prettyJSON (v : JSValue) : JSResult JSValue :=
  match jsonStringify v with
  | .thrown => .ok (.jstr (jsToString v))
  | .ok none => .ok .jundefined
  | .ok (some s) => .ok (.jstr s)

/-! The HTTP client layer, `src/frontend/services/api.js`. -/

/-- The GET request issued by `diagnose` (api.js line 22):
`api.get("/diagnose", \x7b params: \x7b url, mode \x7d \x7d)` — the two query
parameters of the `/diagnose` endpoint. -/
structure DiagnoseRequest : Type where
  url : String
  mode : String
  deriving Repr

/-- The POST body built by `downloadReport` (api.js lines 42-43):
`const payload = \x7b url, mode \x7d; api.post("/report", payload, ...)`.
The fields hold whatever arguments the caller supplied. -/
structure ReportRequest : Type where
  url : JSValue
  mode : JSValue
  deriving Repr

/-- Embedding of the response handling of `diagnose` (api.js lines 25-26)
applied to the HTTP payload `res.data`:
`if (res.data && res.data.data) return res.data.data; return res.data;`.
The `&&` short-circuit means the property `data` is only read once
`res.data` is truthy, and the `if` tests the truthiness of the conjunction
value. -/
def diagnose (payload : JSValue) : JSValue :=
  if payload.truthy && (payload.getProp "data").truthy then payload.getProp "data"
  else payload

/-- Embedding of the request construction of `downloadReport`
(api.js lines 40-43): the POST body carries the first argument as `url`
and the second as `mode`, verbatim. -/
def downloadReport (url : JSValue) (mode : JSValue) : ReportRequest :=
  ⟨url, mode⟩

/-! The `OriginalTroubleshooter` component,
`src/frontend/utils/helpers.js` lines 199-277. -/

/-- Component state of `OriginalTroubleshooter`: the `url`, `mode`, `data`
and `loading` `useState` hooks (helpers.js lines 200-203). -/
structure OTState : Type where
  url : String
  mode : String
  data : Option JSValue
  loading : Bool
  deriving Repr

/-- Initial hook values (helpers.js lines 200-203). -/
def initialOTState : OTState :=
  ⟨"https://example.com", "beginner", none, false⟩

/-- Synchronous prefix of `onRun` (helpers.js lines 205-208): it sets
`loading` to `true` and issues `diagnose(url, mode)` — which performs
`api.get("/diagnose", \x7b params: \x7b url, mode \x7d \x7d)` with the raw
state values. There is no branch: the request is built unconditionally,
with no validation of `url`. -/
def onRunIssue (s : OTState) : OTState × DiagnoseRequest :=
  ({ s with loading := true }, ⟨s.url, s.mode⟩)

/-- Outcome of one awaited `diagnose` call: the backend payload on
fulfillment, or a rejection (network error / non-2xx / thrown). -/
inductive DiagOutcome : Type where
  | success : JSValue → DiagOutcome
  | failure : DiagOutcome
  deriving Repr

/-- Resumption of `onRun` when its awaited `diagnose` call settles
(helpers.js lines 207-212): on fulfillment `setData(res)` stores the
unwrapped payload and the `finally` clause clears `loading`; on rejection
only the `finally` clause runs, so `data` is left unchanged and the
rejection propagates out of the handler. -/
def onRunSettle (out : DiagOutcome) (s : OTState) : OTState :=
  match out with
  | .success payload => { s with data := some (diagnose payload), loading := false }
  | .failure => { s with loading := false }

/-- Embedding of `onDownload` (helpers.js lines 215-218):
`if (!data) return; await downloadReport(data, url);` — `!data` is a
truthiness test, so the handler silently returns both when `data` is
still its initial `null` (`none` here) and when a falsy value was stored
in it; only for truthy stored data does it call `downloadReport`, passing
`data` as the first argument and `url` as the second. The component
`loading` flag is in scope but never consulted. -/
def onDownload (data : Option JSValue) (loading : Bool) (url : String) :
    Option ReportRequest :=
  match data with
  | none => none
  | some d =>
    if d.truthy then some (downloadReport d (.jstr url)) else none

/-- An interleaving event over the `OriginalTroubleshooter` session: the
click that starts run `rid`, or the settling of the awaited response of
run `rid`. Run identifiers index invocations of `onRun`; the component
itself stores no identifier. -/
inductive OTEvent : Type where
  | start : Nat → OTEvent
  | settle : Nat → OTEvent
  deriving Repr

/-- One step of the session under an environment assigning each run its
backend outcome: a start executes the synchronous prefix of `onRun`, a
settle executes its resumption. No guard compares run identifiers, so a
settle always applies to the current state. -/
def otStep (env : Nat → DiagOutcome) (s : OTState) (e : OTEvent) : OTState :=
  match e with
  | .start _ => (onRunIssue s).1
  | .settle rid => onRunSettle (env rid) s

/-- The session state after processing a whole event trace in order. -/
def otRun (env : Nat → DiagOutcome) (s : OTState) (tr : List OTEvent) : OTState :=
  tr.foldl (otStep env) s

/-- The payload stored by the last successful settle of a trace, if any:
the last-writer-by-arrival-order summary of the trace. -/
def lastApplied (env : Nat → DiagOutcome) : List OTEvent → Option JSValue
  | [] => none
  | e :: tr =>
    match lastApplied env tr with
    | some p => some p
    | none =>
      match e with
      | .start _ => none
      | .settle rid =>
        match env rid with
        | .success p => some (diagnose p)
        | .failure => none

/-- The `data` component after a trace, given its value at the start:
the last successful settle wins, regardless of run identifiers. -/
def finalData (env : Nat → DiagOutcome) (d0 : Option JSValue)
    (tr : List OTEvent) : Option JSValue :=
  match lastApplied env tr with
  | some p => some p
  | none => d0

/-! The `TroubleshooterDashboard` component,
`src/frontend/src/TroubleshooterDashboard.jsx`. -/

/-- Component state relevant to a diagnosis run: the `diagnostics` and
`loading` hooks (TroubleshooterDashboard.jsx lines 5-6). -/
structure DashState : Type where
  diagnostics : Option JSValue
  loading : Bool
  deriving Repr

/-- The hard-coded payload that `runDiagnosis` installs in its `catch`
branch (TroubleshooterDashboard.jsx lines 43-51). -/
def fallbackDiagnostics : JSValue :=
  .jobj
    [("summary", .jobj
        [("failed", .jnum 1), ("passed", .jnum 0),
         ("warnings", .jnum 0), ("total", .jnum 1)]),
     ("results", .jarr
        [.jobj
          [("test_name", .jstr "Connection Test"),
           ("status", .jstr "FAIL"),
           ("message", .jstr "Could not connect to backend API"),
           ("fix_suggestion", .jstr "Ensure backend server is running on port 8000")]])]

/-- Embedding of a completed `runDiagnosis` invocation
(TroubleshooterDashboard.jsx lines 36-54) given the outcome of its awaited
`axios.post`: on fulfillment `setDiagnostics(response.data)` stores the raw
payload verbatim (no envelope unwrapping, no validation); on rejection the
`catch` branch stores `fallbackDiagnostics`; either way `setLoading(false)`
runs last. -/
def runDiagnosis (out : DiagOutcome) (s : DashState) : DashState :=
  match out with
  | .success payload => { s with diagnostics := some payload, loading := false }
  | .failure => { s with diagnostics := some fallbackDiagnostics, loading := false }

/-- The summary object the results panel reads
(TroubleshooterDashboard.jsx lines 209-221): `diagnostics.summary`,
displayed verbatim field by field. -/
def displayedSummary (d : JSValue) : JSValue := d.getProp "summary"

/-- The list the results panel maps over (TroubleshooterDashboard.jsx
line 228): `diagnostics.results.map(...)`. The call throws — modelled as
`none` — when `diagnostics.results` is not an array. -/
def displayedResults (d : JSValue) : Option (List JSValue) :=
  match d.getProp "results" with
  | .jarr xs => some xs
  | _ => none

/-- Integer read-out of a displayed count. -/
def asInt : JSValue → Option Int
  | .jnum n => some n
  | _ => none

/-- Whether a diagnostics payload satisfies the summary invariant of the
specification: `total = passed + failed + warnings` and
`total = length results`, on the displayed fields. -/
def summaryConsistent (d : JSValue) : Bool :=
  match asInt ((displayedSummary d).getProp "passed"),
        asInt ((displayedSummary d).getProp "failed"),
        asInt ((displayedSummary d).getProp "warnings"),
        asInt ((displayedSummary d).getProp "total"),
        displayedResults d with
  | some p, some f, some w, some t, some rs =>
    t == p + f + w && t == (rs.length : Int)
  | _, _, _, _, _ => false

/-- The browser download performed by `downloadFixScript`
(TroubleshooterDashboard.jsx lines 58-66): a Blob of the given content,
saved under the given filename with the given MIME type. -/
structure FixScriptDownload : Type where
  filename : String
  mime : String
  content : String
  deriving Repr

/-- Embedding of `downloadFixScript` (TroubleshooterDashboard.jsx lines
56-68): `if (diagnostics?.fix_script) \x7b ... \x7d` — the optional chain
yields `undefined` when `diagnostics` is unset, and the guarded block
builds `new Blob([diagnostics.fix_script], \x7b type: "text/plain" \x7d)`
saved as `fix_networking.sh`. Blob parts are coerced with `String(...)`.
No state setter is invoked anywhere in the function. -/
def downloadFixScript (diagnostics : Option JSValue) : Option FixScriptDownload :=
  match diagnostics with
  | none => none
  | some d =>
    if (d.getProp "fix_script").truthy then
      some ⟨"fix_networking.sh", "text/plain", jsToString (d.getProp "fix_script")⟩
    else none

/-- The full effect of a `downloadFixScript` click on the component: the
(unchanged) state paired with the optional browser download. -/
def downloadFixScriptRun (s : DashState) : DashState × Option FixScriptDownload :=
  (s, downloadFixScript s.diagnostics)

/-- Modelled from the spec: the envelope rule of §6 — the client must
return the inner `data` field exactly when the payload is wrapped in an
envelope `\x7bsuccess, data\x7d`, and the payload itself otherwise. Stated
here only for comparison with the implemented `diagnose` unwrapping. -/
def unwrapSpec (payload : JSValue) : JSValue :=
  if payload.hasProp "success" && payload.hasProp "data" then payload.getProp "data"
  else payload

/-- Whether a string is empty after trimming, i.e. consists of whitespace
only — the validity condition the specification places on a diagnosis
target. -/
def trimEmpty (s : String) : Bool := s.data.all Char.isWhitespace

/-! Concrete values used in the claim analyses. -/

/-- A first backend payload, as returned to run 1 below. -/
def exPayloadOne : JSValue := .jobj [("dns", .jstr "first")]

/-- A second backend payload, as returned to run 2 below. -/
def exPayloadTwo : JSValue := .jobj [("dns", .jstr "second")]

/-- An environment in which run 1 succeeds with `exPayloadOne` and every
other run succeeds with `exPayloadTwo`. -/
def exEnv : Nat → DiagOutcome := fun rid =>
  if rid = 1 then .success exPayloadOne else .success exPayloadTwo

/-- Two overlapping runs whose responses arrive in reverse start order:
run 2 settles first, then the superseded run 1 settles. -/
def exTrace : List OTEvent := [.start 1, .start 2, .settle 2, .settle 1]

/-- A structured payload whose summary disagrees with its results tally. -/
def exBadPayload : JSValue :=
  .jobj
    [("summary", .jobj
        [("passed", .jnum 5), ("failed", .jnum 0),
         ("warnings", .jnum 0), ("total", .jnum 99)]),
     ("results", .jarr [])]

/-- A consistent two-check diagnostics payload, standing for the
last-known-good results of an earlier successful run. -/
def exPriorDiagnostics : JSValue :=
  .jobj
    [("summary", .jobj
        [("passed", .jnum 2), ("failed", .jnum 0),
         ("warnings", .jnum 0), ("total", .jnum 2)]),
     ("results", .jarr
        [.jobj [("test_name", .jstr "Frontend Server"),
                ("status", .jstr "PASS"), ("message", .jstr "ok")],
         .jobj [("test_name", .jstr "Backend Server"),
                ("status", .jstr "PASS"), ("message", .jstr "ok")]])]

/-- A flat per-tool diagnosis payload with a single check. -/
def exDiagData : JSValue :=
  .jobj [("dns", .jobj [("status", .jstr "PASS"), ("message", .jstr "ok")])]

/-- An envelope whose inner `data` field is falsy. -/
def exEnvelope : JSValue := .jobj [("success", .jbool true), ("data", .jnum 0)]

/-- A payload carrying a truthy `data` field but no `success` key, hence
not an envelope in the sense of the specification. -/
def exBarePayload : JSValue := .jobj [("data", .jnum 7)]

/-- The underlying check data of the shape-equivalence example. -/
def exCheckData : JSValue :=
  .jobj [("status", .jstr "PASS"), ("message", .jstr "ok")]

/-- The flat per-tool map carrying exactly `exCheckData` under key
`dns`. -/
def exFlatPayload : JSValue := .jobj [("dns", exCheckData)]

/-- The structured-report results carrying the same check data. -/
def exStructuredResults : List JSValue :=
  [.jobj [("test_name", .jstr "dns"),
          ("status", .jstr "PASS"), ("message", .jstr "ok")]]

/-- The structured report equivalent to `exFlatPayload`. -/
def exStructuredPayload : JSValue :=
  .jobj
    [("summary", .jobj
        [("passed", .jnum 1), ("failed", .jnum 0),
         ("warnings", .jnum 0), ("total", .jnum 1)]),
     ("results", .jarr exStructuredResults)]

/-- The `OriginalTroubleshooter` state with a whitespace-only target. -/
def c5ExState : OTState := { initialOTState with url := "   " }

/-! Helper lemmas. -/

/-- A property absent from a value reads back as `undefined`, which is
falsy. -/
theorem truthy_getProp_false_of_hasProp_false (v : JSValue) (k : String)
    (h : v.hasProp k = false) : (v.getProp k).truthy = false := by
  cases v with
  | jobj fs =>
    cases hl : fs.lookup k with
    | none => simp [JSValue.getProp, hl, JSValue.truthy]
    | some x => simp [JSValue.hasProp, hl] at h
  | jundefined => rfl
  | jnull => rfl
  | jbool b => rfl
  | jnum n => rfl
  | jstr s => rfl
  | jarr xs => rfl
  | jbig n => rfl

/-- A property that reads back truthy is present on the value. -/
theorem hasProp_of_truthy_getProp (v : JSValue) (k : String)
    (h : (v.getProp k).truthy = true) : v.hasProp k = true := by
  cases v with
  | jobj fs =>
    cases hl : fs.lookup k with
    | none => simp [JSValue.getProp, hl, JSValue.truthy] at h
    | some x => simp [JSValue.hasProp, hl]
  | jundefined => simp [JSValue.getProp, JSValue.truthy] at h
  | jnull => simp [JSValue.getProp, JSValue.truthy] at h
  | jbool b => simp [JSValue.getProp, JSValue.truthy] at h
  | jnum n => simp [JSValue.getProp, JSValue.truthy] at h
  | jstr s => simp [JSValue.getProp, JSValue.truthy] at h
  | jarr xs => simp [JSValue.getProp, JSValue.truthy] at h
  | jbig n => simp [JSValue.getProp, JSValue.truthy] at h

/-! Claim analyses. -/

/-- Claim C1, counterexample: in the trace `exTrace` two runs overlap and
run 2 — the highest identifier issued — settles first with
`exPayloadTwo`; when the superseded run 1 then settles, its response is
applied and overwrites `data` with `exPayloadOne`. The stale response is
not discarded. -/
theorem c1_counterexample :
    (otRun exEnv initialOTState [.start 1, .start 2, .settle 2]).data
      = some exPayloadTwo ∧
    (otRun exEnv initialOTState exTrace).data = some exPayloadOne ∧
    exPayloadOne ≠ exPayloadTwo := by
  refine ⟨rfl, rfl, ?_⟩
  simp [exPayloadOne, exPayloadTwo]

/-- Claim C1, amended: the session has no stale-response guard — every
successful settle overwrites `data`, so after any event trace `data` holds
the payload of the last successful settle in arrival order (or its initial
value when none settled successfully), regardless of run start order. -/
theorem c1_last_arrival_wins :
    ∀ (env : Nat → DiagOutcome) (s : OTState) (tr : List OTEvent),
    (otRun env s tr).data = finalData env s.data tr := by
  intro env s tr
  induction tr generalizing s with
  | nil => rfl
  | cons e tr ih =>
    have hstep : otRun env s (e :: tr) = otRun env (otStep env s e) tr := rfl
    rw [hstep, ih]
    cases h : lastApplied env tr with
    | some p => simp [finalData, lastApplied, h]
    | none =>
      cases e with
      | start rid => simp [finalData, lastApplied, h, otStep, onRunIssue]
      | settle rid =>
        cases henv : env rid with
        | success p =>
          simp [finalData, lastApplied, h, henv, otStep, onRunSettle]
        | failure =>
          simp [finalData, lastApplied, h, henv, otStep, onRunSettle]

/-- Claim C2, counterexample: `runDiagnosis` stores the backend payload
verbatim, so the displayed summary of `exBadPayload` reports
`total = 99` against an empty results list — `total ≠ passed + failed +
warnings` and `total ≠ length(results)` — and nothing recomputes it. -/
theorem c2_counterexample :
    (runDiagnosis (.success exBadPayload) ⟨none, true⟩).diagnostics
      = some exBadPayload ∧
    asInt ((displayedSummary exBadPayload).getProp "total") = some 99 ∧
    asInt ((displayedSummary exBadPayload).getProp "passed") = some 5 ∧
    displayedResults exBadPayload = some [] ∧
    summaryConsistent exBadPayload = false :=
  ⟨rfl, rfl, rfl, rfl, rfl⟩

/-- Claim C2, amended: the dashboard displays the backend-supplied summary
verbatim — a successful `runDiagnosis` stores the raw payload with no
validation against the results tally and no recomputation; the summary
invariant is guaranteed only for the locally constructed failure
fallback. -/
theorem c2_summary_verbatim :
    (∀ (p : JSValue) (s : DashState),
      (runDiagnosis (.success p) s).diagnostics = some p) ∧
    summaryConsistent fallbackDiagnostics = true :=
  ⟨fun _ _ => rfl, rfl⟩

/-- Claim C3, counterexample: a failed `runDiagnosis` does not leave the
previously displayed results visible — starting from last-known-good
`exPriorDiagnostics` (two checks), the failure replaces `diagnostics`
with the hard-coded one-check fallback. -/
theorem c3_counterexample :
    (runDiagnosis .failure ⟨some exPriorDiagnostics, true⟩).diagnostics
      = some fallbackDiagnostics ∧
    (displayedResults fallbackDiagnostics).map List.length = some 1 ∧
    (displayedResults exPriorDiagnostics).map List.length = some 2 ∧
    fallbackDiagnostics ≠ exPriorDiagnostics := by
  refine ⟨rfl, rfl, rfl, ?_⟩
  intro h
  have h2 : (displayedResults fallbackDiagnostics).map List.length
      = (displayedResults exPriorDiagnostics).map List.length := by rw [h]
  rw [show (displayedResults fallbackDiagnostics).map List.length = some 1 from rfl,
      show (displayedResults exPriorDiagnostics).map List.length = some 2 from rfl] at h2
  exact absurd h2 (by decide)

/-- Claim C3, amended: on failure `runDiagnosis` replaces `diagnostics`
wholesale with the fixed single-FAIL fallback payload (prior results are
not preserved), while `onRun` of `OriginalTroubleshooter` leaves its
`data` unchanged on failure; neither component records an error kind. -/
theorem c3_failure_replaces_results :
    (∀ s : DashState,
      runDiagnosis .failure s = ⟨some fallbackDiagnostics, false⟩) ∧
    (∀ s : OTState, (onRunSettle .failure s).data = s.data) :=
  ⟨fun _ => rfl, fun _ => rfl⟩

/-- Claim C4, code bug: `onDownload` calls `downloadReport(data, url)`,
so the POST `/report` body carries the diagnosis result object as its
`url` field and the target string as its `mode` field, contradicting the
documented parameters of `downloadReport` (url = the diagnosed URL,
mode = the explanation mode). Evaluated at a concrete state. -/
theorem c4_swapped_arguments :
    onDownload (some exDiagData) false "example.com"
      = some (ReportRequest.mk exDiagData (.jstr "example.com")) ∧
    exDiagData ≠ .jstr "example.com" ∧
    (JSValue.jstr "example.com") ≠ .jstr "beginner" := by
  refine ⟨rfl, ?_, ?_⟩ <;> simp [exDiagData]

/-- Claim C5, counterexample: with the whitespace-only target of
`c5ExState` — empty after trimming — `onRun` still issues the GET
`/diagnose` request, carrying the raw target; no `ValidationError` path
exists. -/
theorem c5_counterexample :
    trimEmpty c5ExState.url = true ∧
    (onRunIssue c5ExState).2 = ⟨"   ", "beginner"⟩ := by
  exact ⟨by decide, rfl⟩

/-- Claim C5, amended: `onRun` performs no target validation — even when
the target is empty after trimming, the diagnosis request is issued with
the raw `url` and `mode` state values and `loading` is set. -/
theorem c5_no_validation :
    ∀ s : OTState, trimEmpty s.url = true →
    (onRunIssue s).2 = ⟨s.url, s.mode⟩ ∧
    (onRunIssue s).1 = { s with loading := true } :=
  fun _ _ => ⟨rfl, rfl⟩

/-- Claim C5, witness for the amended theorem at the whitespace-only
state. -/
theorem c5_witness :
    (onRunIssue c5ExState).2 = ⟨c5ExState.url, c5ExState.mode⟩ ∧
    (onRunIssue c5ExState).1 = { c5ExState with loading := true } :=
  c5_no_validation c5ExState (by decide)

/-- Claim C6, counterexample: the client keys unwrapping on truthiness of
`payload.data`, not on the presence of an envelope — the genuine envelope
`exEnvelope` (with falsy inner data `0`) is returned whole instead of
unwrapped, while the non-envelope `exBarePayload` (a `data` field but no
`success` key) is unwrapped. -/
theorem c6_counterexample :
    diagnose exEnvelope = exEnvelope ∧
    exEnvelope.hasProp "success" = true ∧
    exEnvelope.hasProp "data" = true ∧
    exEnvelope.getProp "data" = .jnum 0 ∧
    exEnvelope ≠ .jnum 0 ∧
    unwrapSpec exEnvelope = .jnum 0 ∧
    diagnose exBarePayload = .jnum 7 ∧
    exBarePayload.hasProp "success" = false ∧
    exBarePayload ≠ .jnum 7 := by
  refine ⟨rfl, rfl, rfl, rfl, ?_, rfl, rfl, rfl, ?_⟩ <;>
    simp [exEnvelope, exBarePayload]

/-- Claim C6, amended: `diagnose` returns `payload.data` exactly when both
the payload and its `data` field are truthy — irrespective of any
`success` key — and returns the payload unchanged whenever `data` is
falsy or absent. -/
theorem c6_unwrap_by_truthiness :
    ∀ payload : JSValue,
    (payload.truthy = true → (payload.getProp "data").truthy = true →
      diagnose payload = payload.getProp "data") ∧
    ((payload.getProp "data").truthy = false → diagnose payload = payload) := by
  intro payload
  constructor
  · intro h1 h2
    simp [diagnose, h1, h2]
  · intro h2
    simp [diagnose, h2]

/-- Claim C6, witness for the amended theorem: the bare payload with a
truthy `data` field is unwrapped. -/
theorem c6_witness : diagnose exBarePayload = exBarePayload.getProp "data" :=
  (c6_unwrap_by_truthiness exBarePayload).1 (by rfl) (by rfl)

/-- Claim C7, counterexample: with `data` set and a run in flight
(`loading = true`), `onDownload` issues the report request instead of
failing; and with no run ever started (`data` unset) it silently no-ops
rather than raising `IllegalStateError`. -/
theorem c7_counterexample :
    onDownload (some exDiagData) true "example.com"
      = some (downloadReport exDiagData (.jstr "example.com")) ∧
    (onDownload (some exDiagData) true "example.com").isSome = true ∧
    onDownload none false "example.com" = none :=
  ⟨rfl, rfl, rfl⟩

/-- Claim C7, amended: `onDownload` never raises — it ignores `loading`
entirely, silently no-ops when `data` is unset or holds a falsy stored
value, and issues the download exactly when the stored data is truthy,
in-flight run or not. -/
theorem c7_noop_or_download :
    ∀ (data : Option JSValue) (l1 l2 : Bool) (url : String),
    onDownload data l1 url = onDownload data l2 url ∧
    onDownload none l1 url = none ∧
    (∀ d : JSValue, d.truthy = false → onDownload (some d) l1 url = none) ∧
    (∀ d : JSValue, d.truthy = true →
      onDownload (some d) l1 url = some (downloadReport d (.jstr url))) := by
  intro data l1 l2 url
  refine ⟨?_, rfl, ?_, ?_⟩
  · cases data <;> rfl
  · intro d hd
    simp [onDownload, hd]
  · intro d hd
    simp [onDownload, hd]

/-- Claim C7, witness for the amended theorem: a falsy stored payload
(`0`) downloads nothing even though `data` is set, while the truthy
`exDiagData` triggers the download even with a run in flight. -/
theorem c7_witness :
    onDownload (some (.jnum 0)) true "example.com" = none ∧
    onDownload (some exDiagData) true "example.com"
      = some (downloadReport exDiagData (.jstr "example.com")) :=
  ⟨(c7_noop_or_download (some (.jnum 0)) true false "example.com").2.2.1
     (.jnum 0) (by rfl),
   (c7_noop_or_download (some exDiagData) true false "example.com").2.2.2
     exDiagData (by rfl)⟩

/-- Claim C8, counterexample: for equal underlying check data the two
shapes do not normalize alike under any one function of the code — the
flat-map path (`Object.entries`) applied to the equivalent structured
report yields the keys `summary`/`results` instead of the check, and the
structured path (`diagnostics.results.map`) applied to the flat map
throws (no `results` array). -/
theorem c8_counterexample :
    (objectEntries exFlatPayload).map Prod.fst = ["dns"] ∧
    (objectEntries exStructuredPayload).map Prod.fst = ["summary", "results"] ∧
    (objectEntries exFlatPayload).map Prod.fst
      ≠ (objectEntries exStructuredPayload).map Prod.fst ∧
    displayedResults exFlatPayload = none ∧
    displayedResults exStructuredPayload = some exStructuredResults := by
  refine ⟨rfl, rfl, ?_, rfl, rfl⟩
  decide

/-- Claim C8, amended: the two backend shapes are consumed by distinct
components with no shared normalization — `OriginalTroubleshooter`
renders the entries of the object it is given verbatim, while
`TroubleshooterDashboard` renders the `results` array and throws when the
payload has none. -/
theorem c8_two_disjoint_paths :
    ∀ fs : List (String × JSValue),
    objectEntries (.jobj fs) = fs ∧
    (fs.lookup "results" = none → displayedResults (.jobj fs) = none) ∧
    (∀ rs : List JSValue, fs.lookup "results" = some (.jarr rs) →
      displayedResults (.jobj fs) = some rs) := by
  intro fs
  refine ⟨rfl, ?_, ?_⟩
  · intro h
    simp [displayedResults, JSValue.getProp, h]
  · intro rs h
    simp [displayedResults, JSValue.getProp, h]

/-- Claim C8, witness for the amended theorem at the equivalent concrete
payloads. -/
theorem c8_witness :
    displayedResults exFlatPayload = none ∧
    displayedResults exStructuredPayload = some exStructuredResults :=
  ⟨(c8_two_disjoint_paths [("dns", exCheckData)]).2.1 (by rfl),
   (c8_two_disjoint_paths
      [("summary", .jobj
          [("passed", .jnum 1), ("failed", .jnum 0),
           ("warnings", .jnum 0), ("total", .jnum 1)]),
       ("results", .jarr exStructuredResults)]).2.2 exStructuredResults (by rfl)⟩

/-- Claim C9, counterexample: `prettyJSON` applied to `undefined` returns
`undefined` — `JSON.stringify(undefined)` yields `undefined` without
throwing, and the function returns it — so prettyJSON does not return a
string for every value. -/
theorem c9_counterexample :
    prettyJSON .jundefined = .ok .jundefined ∧ JSValue.isString .jundefined = false :=
  ⟨rfl, rfl⟩

/-- Claim C9, amended: `prettyJSON` never propagates an exception — it
returns normally on every value; whenever `JSON.stringify` throws it
returns the `String` coercion of the value, and whenever `JSON.stringify`
produces a string it returns that string; only when `JSON.stringify`
yields `undefined` does it return a non-string. -/
theorem c9_never_throws :
    ∀ v : JSValue,
    (∃ r : JSValue, prettyJSON v = .ok r) ∧
    (jsonStringify v = .thrown → prettyJSON v = .ok (.jstr (jsToString v))) ∧
    (∀ s : String, jsonStringify v = .ok (some s) →
      prettyJSON v = .ok (.jstr s)) := by
  intro v
  refine ⟨?_, ?_, ?_⟩
  · cases h : jsonStringify v with
    | thrown => exact ⟨.jstr (jsToString v), by simp [prettyJSON, h]⟩
    | ok o =>
      cases o with
      | none => exact ⟨.jundefined, by simp [prettyJSON, h]⟩
      | some s => exact ⟨.jstr s, by simp [prettyJSON, h]⟩
  · intro h
    simp [prettyJSON, h]
  · intro s h
    simp [prettyJSON, h]

/-- Claim C9, witness for the amended theorem: on a BigInt, where
`JSON.stringify` throws, the catch branch returns `String(obj)`. -/
theorem c9_witness :
    prettyJSON (.jbig 2) = .ok (.jstr (jsToString (.jbig 2))) :=
  (c9_never_throws (.jbig 2)).2.1 (by rfl)

/-- Claim C10: `downloadFixScript` is a guarded no-op — it never changes
component state; with `diagnostics` unset, or set to a value without a
`fix_script` field, no download is performed; and a download is performed
only when the `fix_script` field is present. -/
theorem c10_guarded_noop :
    ∀ s : DashState,
    (downloadFixScriptRun s).1 = s ∧
    (s.diagnostics = none → (downloadFixScriptRun s).2 = none) ∧
    (∀ d : JSValue, s.diagnostics = some d → d.hasProp "fix_script" = false →
      (downloadFixScriptRun s).2 = none) ∧
    (∀ a : FixScriptDownload, (downloadFixScriptRun s).2 = some a →
      ∃ d : JSValue, s.diagnostics = some d ∧ d.hasProp "fix_script" = true) := by
  intro s
  refine ⟨rfl, ?_, ?_, ?_⟩
  · intro h
    simp [downloadFixScriptRun, downloadFixScript, h]
  · intro d hd hf
    have ht := truthy_getProp_false_of_hasProp_false d "fix_script" hf
    simp [downloadFixScriptRun, downloadFixScript, hd, ht]
  · intro a ha
    cases hd : s.diagnostics with
    | none => simp [downloadFixScriptRun, downloadFixScript, hd] at ha
    | some d =>
      refine ⟨d, rfl, ?_⟩
      cases htr : (d.getProp "fix_script").truthy with
      | true => exact hasProp_of_truthy_getProp d _ htr
      | false => simp [downloadFixScriptRun, downloadFixScript, hd, htr] at ha

/-- Claim C10, witness: with no diagnostics no download happens; a
diagnostics payload without a `fix_script` field downloads nothing; and
the state is returned unchanged. -/
theorem c10_witness :
    (downloadFixScriptRun ⟨none, false⟩).2 = none ∧
    (downloadFixScriptRun ⟨some exPriorDiagnostics, false⟩).2 = none ∧
    (downloadFixScriptRun ⟨some fallbackDiagnostics, true⟩).1
      = ⟨some fallbackDiagnostics, true⟩ :=
  ⟨(c10_guarded_noop ⟨none, false⟩).2.1 rfl,
   (c10_guarded_noop ⟨some exPriorDiagnostics, false⟩).2.2.1
     exPriorDiagnostics rfl (by rfl),
   (c10_guarded_noop ⟨some fallbackDiagnostics, true⟩).1⟩

end NetTS
